import Mathlib

/-!
A shallow embedding of the field-control consumer in src/src/useController.ts
(react-hook-form useController) together with the collaborator operations the
hook calls on the shared control object.  Pure decision logic is translated
directly from the source; collaborators that live outside src (the PathAccessor
get/set helpers, Control.unregister, FieldRegistry.register,
Control._setDisabledField) are modelled from the specification, each marked in
its doc comment.
-/

set_option autoImplicit false

namespace RHF

/-- JS runtime values stored in the value trees (opaque leaves are enough for
the properties verified here). -/
inductive Val where
  | str (s : String)
  | num (n : Int)
  | bool (b : Bool)
deriving DecidableEq, Repr

/-- A rendered UI element, identified abstractly. -/
structure Elem where
  id : Nat
deriving DecidableEq, Repr

/-- The element capability handle built at src/src/useController.ts lines
158-164: every member (focus, select, setCustomValidity, reportValidity)
forwards to the one attached element, so the handle is determined by its
target element. -/
structure CapHandle where
  target : Elem
deriving DecidableEq, Repr

/-- The mutable per-field record stored at control.fields[name].f in the
source: a mount flag, a tri-state disabled flag, and an optional element
capability handle. -/
structure FieldF where
  mount : Bool
  disabled : Option Bool
  ref : Option CapHandle
deriving DecidableEq, Repr

/-- A path-keyed finite map, the flat representation used for every tree the
claims touch.  Modelled from the spec: PathAccessor addresses both value trees
and the field registry by path strings; nesting is irrelevant to the verified
properties, so a path-keyed association list represents each tree. -/
abbrev KeyMap (α : Type) : Type := List (String × α)

/-- First binding for a key, none when the key is absent.  Modelled from the
spec: PathAccessor get returns the value at the path when every segment is
present. -/
def lookup {α : Type} : KeyMap α → String → Option α
  | [], _ => none
  | (k, v) :: rest, key => if k = key then some v else lookup rest key

/-- Replace the binding for a key, appending when absent.  Modelled from the
spec: PathAccessor set creates missing slots and overwrites existing ones. -/
def setKey {α : Type} : KeyMap α → String → α → KeyMap α
  | [], key, v => [(key, v)]
  | (k, v0) :: rest, key, v =>
      if k = key then (key, v) :: rest else (k, v0) :: setKey rest key v

/-- Drop every binding for a key. -/
def removeKey {α : Type} (l : KeyMap α) (key : String) : KeyMap α :=
  l.filter (fun p => p.1 != key)

/-- Modelled from the spec: PathAccessor get with a fallback, here with the
fallback itself possibly undefined; the fallback is returned exactly when the
path is absent (the utils get helper is not under src). -/
def getWithFallback (tree : KeyMap Val) (path : String) (fallback : Option Val) :
    Option Val :=
  match lookup tree path with
  | some v => some v
  | none => fallback

/-- A validation error payload: an object produced by a validator; as a JS
object it is always truthy. -/
structure FieldError where
  kind : String
  message : String
deriving DecidableEq, Repr

/-- The engine state visible to useController: the field registry, the two
value trees, the status sets, the in-progress array-action flag and the
form-level shouldUnregister option. -/
structure ControlState where
  fields : KeyMap FieldF
  formValues : KeyMap Val
  defaultValues : KeyMap Val
  errors : KeyMap FieldError
  touchedFields : KeyMap Bool
  dirtyFields : KeyMap Bool
  stateAction : Bool
  optShouldUnregister : Bool
deriving DecidableEq, Repr

/-- src/src/useController.ts lines 186-187: the resolved unregister flag is
the JS disjunction of the form-level option and the per-field prop, with an
absent prop falsy. -/
def resolvedShouldUnregister (s : ControlState) (shouldUnregisterProp : Option Bool) :
    Bool :=
  s.optShouldUnregister || shouldUnregisterProp.getD false

/-- src/src/useController.ts lines 213-219: set the mount flag of the field
node at the path when the node exists, otherwise do nothing. -/
def updateMounted (s : ControlState) (name : String) (value : Bool) : ControlState :=
  match lookup s.fields name with
  | some f => { s with fields := setKey s.fields name { f with mount := value } }
  | none => s

/-- Modelled from the spec: Control.unregister with the policy resolved to
fully unregister (4.3) deletes the node, deletes the value and default
entries, and clears the status sets for the path (createFormControl is not
under src). -/
def unregister (s : ControlState) (name : String) : ControlState :=
  { s with
      fields := removeKey s.fields name
      formValues := removeKey s.formValues name
      defaultValues := removeKey s.defaultValues name
      errors := removeKey s.errors name
      touchedFields := removeKey s.touchedFields name
      dirtyFields := removeKey s.dirtyFields name }

/-- src/src/useController.ts lines 238-246: the effect cleanup run when the
consumer detaches.  For an array-managed path it unregisters only when the
resolved flag holds and no array mutation is in progress; for any other path
it unregisters exactly when the resolved flag holds; otherwise it only clears
the mount flag. -/
def detachCleanup (s : ControlState) (name : String) (isArrayField : Bool)
    (shouldUnregisterProp : Option Bool) : ControlState :=
  let flag := resolvedShouldUnregister s shouldUnregisterProp
  if (if isArrayField then flag && !s.stateAction else flag)
  then unregister s name
  else updateMounted s name false

/-- Modelled from the spec: the set of array-managed paths; src line 64
computes isArrayField by membership of the name in control names array (the
isNameInFieldArray helper is not under src). -/
def isNameInFieldArray (arrayNames : List String) (name : String) : Bool :=
  arrayNames.contains name

/-- src/src/useController.ts lines 70-79: the defaultValue handed to useWatch,
seeding the field value from the current value tree when present, else from
the default value tree when present, else from the caller-supplied
defaultValue prop. -/
def seedValue (s : ControlState) (name : String) (callerDefault : Option Val) :
    Option Val :=
  getWithFallback s.formValues name
    (getWithFallback s.defaultValues name callerDefault)

/-- The utils isBoolean import applied to a raw prop value (absent prop is
undefined): true exactly on a JS boolean. -/
def isBoolean : Option Val → Bool
  | some (Val.bool _) => true
  | _ => false

/-- src/src/useController.ts line 93 and lines 207-209: the disabled entry of
the register options object is present exactly when the disabled prop is an
explicit boolean, carrying that boolean. -/
def registerDisabledOption (disabledProp : Option Val) : Option Bool :=
  match disabledProp with
  | some (Val.bool b) => some b
  | _ => none

/-- Options passed to register: the seed value and the optional disabled
entry (validation rules are opaque to the verified properties). -/
structure RegisterOptions where
  value : Option Val
  disabled : Option Bool
deriving DecidableEq, Repr

/-- Modelled from the spec: FieldRegistry.register (4.2).  When no node exists
at the path it creates one and seeds the current tree with (existing current
value, else existing default value, else the options value), applying the
disabled option; when a node already exists it is reused and the value is left
untouched, with no default re-seeding (4.3).  createFormControl is not under
src. -/
def register (s : ControlState) (name : String) (opts : RegisterOptions) :
    ControlState :=
  match lookup s.fields name with
  | some f =>
      { s with
          fields := setKey s.fields name
            { f with disabled :=
                match opts.disabled with
                | some b => some b
                | none => f.disabled } }
  | none =>
      let seeded := getWithFallback s.formValues name
        (getWithFallback s.defaultValues name opts.value)
      { s with
          fields := setKey s.fields name
            { mount := false, disabled := opts.disabled, ref := none }
          formValues :=
            match seeded with
            | some v => setKey s.formValues name v
            | none => s.formValues }

/-- Modelled from the spec: Control setDisabledField (4.6) writes the node
disabled flag when the argument is an explicit boolean and is a silent no-op
otherwise, also when the node is missing (createFormControl is not under
src). -/
def setDisabledField (s : ControlState) (name : String) (disabledProp : Option Val) :
    ControlState :=
  match disabledProp with
  | some (Val.bool b) =>
      match lookup s.fields name with
      | some f => { s with fields := setKey s.fields name { f with disabled := some b } }
      | none => s
  | _ => s

/-- src/src/useController.ts lines 153-168: the ref callback reads the field
node at the path; only when both the node exists and the element is non-null
does it overwrite the capability handle with one wrapping the element; in
every other case the state is returned unchanged. -/
def refCallback (s : ControlState) (name : String) (elm : Option Elem) : ControlState :=
  match lookup s.fields name, elm with
  | some f, some e =>
      { s with fields := setKey s.fields name { f with ref := some { target := e } } }
  | _, _ => s

/-- The formState slice read by the fieldState getters, plus the form-level
disabled flag read by the field object. -/
structure FormState where
  errors : KeyMap FieldError
  dirtyFields : KeyMap Bool
  touchedFields : KeyMap Bool
  validatingFields : KeyMap Bool
  disabled : Bool
deriving DecidableEq, Repr

/-- The object built at src/src/useController.ts lines 99-127: every property
read is a getter, so each member is a function of the form state current at
access time rather than a value captured when the object was built. -/
structure ControllerFieldState where
  invalid : FormState → Bool
  isDirty : FormState → Bool
  isTouched : FormState → Bool
  isValidating : FormState → Bool
  error : FormState → Option FieldError

/-- src/src/useController.ts lines 99-127: the getters close over the path
name and re-run the lookup against the form state passed at each access;
double negation of an error object is its presence, of a stored boolean the
boolean itself with absent falsy. -/
def mkFieldState (name : String) : ControllerFieldState where
  invalid := fun fs => (lookup fs.errors name).isSome
  isDirty := fun fs => (lookup fs.dirtyFields name).getD false
  isTouched := fun fs => (lookup fs.touchedFields name).getD false
  isValidating := fun fs => (lookup fs.validatingFields name).getD false
  error := fun fs => lookup fs.errors name

/-- src/src/useController.ts lines 170-183, the disabled entry of the returned
field object: present exactly when the disabled prop is an explicit boolean or
the form-level disabled flag is true, with value the JS disjunction of the
form-level flag and the prop (when the form-level flag is false the condition
forces the prop to be a boolean, so the getD default is never read). -/
def fieldDisabled (fsDisabled : Bool) (disabledProp : Option Val) : Option Val :=
  if isBoolean disabledProp || fsDisabled then
    some (if fsDisabled then Val.bool true else disabledProp.getD (Val.bool false))
  else none

/-- An observable operation performed by the register-or-rename effect against
a control instance; control instances are named by id. -/
inductive EffectOp where
  | unregisterOn (ctrl : Nat) (name : String)
  | registerOn (ctrl : Nat) (name : String)
  | setMount (name : String) (mounted : Bool)
  | seedDefault (name : String)
deriving DecidableEq, Repr

/-- JS truthiness of the previous name: present and a non-empty string. -/
def strTruthy : Option String → Bool
  | some p => p != ""
  | none => false

/-- src/src/useController.ts lines 185-236, the effect body as the sequence of
operations it performs: unregister the previous name on the previous control
when the control instance changed, or on the current control when only the
name changed, both skipped for array-managed paths; re-register on a name or
control change; mark the field mounted; seed defaults when the resolved
unregister flag holds; then the unconditional bare register for non-array
paths.  A previous control object is always truthy, so only the previous name
guards the first branch. -/
def effectBodyOps (previousControl control : Nat) (previousName : Option String)
    (name : String) (isArrayField : Bool) (shouldUnregisterField : Bool) :
    List EffectOp :=
  let isControlChanged : Bool := previousControl != control
  let isNameChanged : Bool := previousName != some name
  (if isControlChanged && strTruthy previousName && !isArrayField then
     [EffectOp.unregisterOn previousControl (previousName.getD "")]
   else []) ++
  (if !isControlChanged && strTruthy previousName && isNameChanged && !isArrayField then
     [EffectOp.unregisterOn control (previousName.getD "")]
   else []) ++
  (if isNameChanged || isControlChanged then [EffectOp.registerOn control name]
   else []) ++
  [EffectOp.setMount name true] ++
  (if shouldUnregisterField then [EffectOp.seedDefault name] else []) ++
  (if !isArrayField then [EffectOp.registerOn control name] else [])

/-- A concrete state with the form-level shouldUnregister option on and one
mounted non-array field holding a value. -/
def c1State : ControlState :=
  { fields := [("f", { mount := true, disabled := none, ref := none })]
    formValues := [("f", Val.str "kept")]
    defaultValues := []
    errors := []
    touchedFields := []
    dirtyFields := []
    stateAction := false
    optShouldUnregister := true }

/-- A concrete state with an array mutation in progress, the form-level
shouldUnregister option on, and one mounted field holding a value. -/
def c2State : ControlState :=
  { fields := [("items.0.v", { mount := true, disabled := none, ref := none })]
    formValues := [("items.0.v", Val.num 7)]
    defaultValues := []
    errors := []
    touchedFields := []
    dirtyFields := []
    stateAction := true
    optShouldUnregister := true }

/-- A concrete state whose current value tree already holds a value at path a. -/
def c3State : ControlState :=
  { fields := []
    formValues := [("a", Val.str "cur")]
    defaultValues := [("a", Val.str "def")]
    errors := []
    touchedFields := []
    dirtyFields := []
    stateAction := false
    optShouldUnregister := false }

/-- A concrete state with one mounted field and a value, nothing pending and
every unregister flag off. -/
def c4State : ControlState :=
  { fields := [("f", { mount := true, disabled := none, ref := none })]
    formValues := [("f", Val.str "pre")]
    defaultValues := [("f", Val.str "d0")]
    errors := []
    touchedFields := []
    dirtyFields := []
    stateAction := false
    optShouldUnregister := false }

/-- A concrete state with one field whose capability handle is bound to the
element with id 1. -/
def c5State : ControlState :=
  { fields := [("x", { mount := true, disabled := none
                       ref := some { target := { id := 1 } } })]
    formValues := []
    defaultValues := []
    errors := []
    touchedFields := []
    dirtyFields := []
    stateAction := false
    optShouldUnregister := false }

/-- A concrete state with one field node carrying no disabled flag. -/
def c7State : ControlState :=
  { fields := [("d", { mount := true, disabled := none, ref := none })]
    formValues := []
    defaultValues := []
    errors := []
    touchedFields := []
    dirtyFields := []
    stateAction := false
    optShouldUnregister := false }

/-- A concrete state with no field node at path y. -/
def c9State : ControlState :=
  { fields := []
    formValues := []
    defaultValues := []
    errors := []
    touchedFields := []
    dirtyFields := []
    stateAction := false
    optShouldUnregister := false }

theorem lookup_setKey_self {α : Type} (l : KeyMap α) (k : String) (v : α) :
    lookup (setKey l k v) k = some v := by
  induction l with
  | nil => simp [setKey, lookup]
  | cons hd tl ih =>
      obtain ⟨k0, v0⟩ := hd
      by_cases h : k0 = k
      · simp [setKey, h, lookup]
      · simp [setKey, h, lookup, ih]

theorem updateMounted_only_fields (s : ControlState) (name : String) (b : Bool) :
    (updateMounted s name b).formValues = s.formValues
    ∧ (updateMounted s name b).defaultValues = s.defaultValues
    ∧ (updateMounted s name b).errors = s.errors
    ∧ (updateMounted s name b).touchedFields = s.touchedFields
    ∧ (updateMounted s name b).dirtyFields = s.dirtyFields := by
  cases hl : lookup s.fields name <;> simp [updateMounted, hl]

theorem updateMounted_lookup (s : ControlState) (name : String) (b : Bool) (f : FieldF)
    (hf : lookup s.fields name = some f) :
    lookup (updateMounted s name b).fields name = some { f with mount := b } := by
  simp [updateMounted, hf, lookup_setKey_self]

/-- Claim C1, counterexample: with the form-level shouldUnregister option true
and the per-field prop explicitly false, detaching the non-array field f fully
unregisters it (node and value both deleted), so the explicit per-field false
does not take precedence over the form-level flag. -/
theorem c1_counterexample :
    resolvedShouldUnregister c1State (some false) = true
    ∧ lookup (detachCleanup c1State "f" false (some false)).fields "f" = none
    ∧ lookup (detachCleanup c1State "f" false (some false)).formValues "f" = none := by
  refine ⟨rfl, ?_, ?_⟩ <;> decide

/-- Claim C1, amended: the resolved unregister flag is the disjunction of the
form-level option and the per-field prop with an absent prop falsy; a
per-field explicit true forces full unregistration of a non-array field when
the form-level flag is off, but a form-level true flag forces full
unregistration regardless of the per-field prop, and only when both resolve
false does detach merely clear the mount flag. -/
theorem c1_shouldUnregister_disjunction (s : ControlState) (name : String)
    (sp : Option Bool) :
    resolvedShouldUnregister s sp = (s.optShouldUnregister || sp.getD false)
    ∧ (s.optShouldUnregister = true →
        detachCleanup s name false sp = unregister s name)
    ∧ (s.optShouldUnregister = false → sp = some true →
        detachCleanup s name false sp = unregister s name)
    ∧ (s.optShouldUnregister = false → sp.getD false = false →
        detachCleanup s name false sp = updateMounted s name false) := by
  refine ⟨rfl, ?_, ?_, ?_⟩
  · intro h
    simp [detachCleanup, resolvedShouldUnregister, h]
  · intro h1 h2
    simp [detachCleanup, resolvedShouldUnregister, h1, h2]
  · intro h1 h2
    simp [detachCleanup, resolvedShouldUnregister, h1, h2]

/-- Claim C1, witness: the amended theorem applied at the concrete state with
the form-level flag on and the per-field prop explicitly false. -/
theorem c1_witness :
    detachCleanup c1State "f" false (some false) = unregister c1State "f" :=
  (c1_shouldUnregister_disjunction c1State "f" (some false)).2.1 rfl

/-- Claim C2: for a path in the array-managed name set, when an array mutation
is in progress at detach time the cleanup never fully unregisters, whatever
the resolved shouldUnregister flag: it equals the mount-flag update, the value
tree is untouched, and the node survives with only its mount flag cleared. -/
theorem c2_array_action_defers_unregister (s : ControlState) (arr : List String)
    (name : String) (sp : Option Bool)
    (hmem : isNameInFieldArray arr name = true)
    (hact : s.stateAction = true) :
    detachCleanup s name (isNameInFieldArray arr name) sp = updateMounted s name false
    ∧ (detachCleanup s name (isNameInFieldArray arr name) sp).formValues = s.formValues
    ∧ (∀ f : FieldF, lookup s.fields name = some f →
        lookup (detachCleanup s name (isNameInFieldArray arr name) sp).fields name
          = some { f with mount := false }) := by
  have h1 : detachCleanup s name (isNameInFieldArray arr name) sp
      = updateMounted s name false := by
    simp [detachCleanup, hmem, hact]
  refine ⟨h1, ?_, ?_⟩
  · rw [h1]
    exact (updateMounted_only_fields s name false).1
  · intro f hf
    rw [h1]
    exact updateMounted_lookup s name false f hf

/-- Claim C2, witness: the theorem applied at the concrete state with an array
mutation in progress, an array-managed path, and every unregister flag on. -/
theorem c2_witness :
    detachCleanup c2State "items.0.v"
        (isNameInFieldArray ["items.0.v"] "items.0.v") (some true)
      = updateMounted c2State "items.0.v" false :=
  (c2_array_action_defers_unregister c2State ["items.0.v"] "items.0.v" (some true)
    (by decide) rfl).1

/-- Claim C3: the initial field value handed to useWatch is seeded from the
current value tree when present, else from the default value tree when
present, else from the caller-supplied defaultValue prop. -/
theorem c3_seed_order (s : ControlState) (name : String) (cd : Option Val) :
    (∀ v : Val, lookup s.formValues name = some v → seedValue s name cd = some v)
    ∧ (lookup s.formValues name = none →
        ∀ v : Val, lookup s.defaultValues name = some v → seedValue s name cd = some v)
    ∧ (lookup s.formValues name = none → lookup s.defaultValues name = none →
        seedValue s name cd = cd) := by
  refine ⟨?_, ?_, ?_⟩
  · intro v hv
    simp [seedValue, getWithFallback, hv]
  · intro h0 v hv
    simp [seedValue, getWithFallback, h0, hv]
  · intro h0 h1
    simp [seedValue, getWithFallback, h0, h1]

/-- Claim C3, witness: the theorem applied at a concrete state holding both a
current value and a default value at the path, with a caller default also
supplied: the current value wins. -/
theorem c3_witness :
    seedValue c3State "a" (some (Val.str "caller")) = some (Val.str "cur") :=
  (c3_seed_order c3State "a" (some (Val.str "caller"))).1 (Val.str "cur") (by decide)

/-- Claim C4: for a non-array path whose resolved unregister flag is false,
detach leaves both value trees untouched and the node present with only its
mount flag cleared, so the useWatch seeding of a later re-registration still
observes the pre-detach current value and a register call on the surviving
node performs no default re-seeding. -/
theorem c4_detach_preserves_value (s : ControlState) (name : String)
    (sp : Option Bool) (f : FieldF) (v : Val)
    (hflag : resolvedShouldUnregister s sp = false)
    (hf : lookup s.fields name = some f)
    (hv : lookup s.formValues name = some v) :
    (detachCleanup s name false sp).formValues = s.formValues
    ∧ (detachCleanup s name false sp).defaultValues = s.defaultValues
    ∧ lookup (detachCleanup s name false sp).fields name = some { f with mount := false }
    ∧ (∀ cd : Option Val, seedValue (detachCleanup s name false sp) name cd = some v)
    ∧ (∀ opts : RegisterOptions,
        lookup (register (detachCleanup s name false sp) name opts).formValues name
          = some v) := by
  have h1 : detachCleanup s name false sp = updateMounted s name false := by
    simp [detachCleanup, hflag]
  have hfv : (detachCleanup s name false sp).formValues = s.formValues := by
    rw [h1]
    exact (updateMounted_only_fields s name false).1
  have hdv : (detachCleanup s name false sp).defaultValues = s.defaultValues := by
    rw [h1]
    exact (updateMounted_only_fields s name false).2.1
  have hlf : lookup (detachCleanup s name false sp).fields name
      = some { f with mount := false } := by
    rw [h1]
    exact updateMounted_lookup s name false f hf
  refine ⟨hfv, hdv, hlf, ?_, ?_⟩
  · intro cd
    simp [seedValue, getWithFallback, hfv, hv]
  · intro opts
    simp [register, hlf, hfv, hv]

/-- Claim C4, witness: the theorem applied at a concrete state with a mounted
field f holding a value and every unregister flag off. -/
theorem c4_witness :
    lookup (detachCleanup c4State "f" false none).fields "f"
      = some { mount := false, disabled := none, ref := none }
    ∧ seedValue (detachCleanup c4State "f" false none) "f" none
      = some (Val.str "pre") := by
  have h := c4_detach_preserves_value c4State "f" none
    { mount := true, disabled := none, ref := none } (Val.str "pre")
    (by decide) (by decide) (by decide)
  exact ⟨h.2.2.1, h.2.2.2.1 none⟩

/-- Claim C5, counterexample: invoking the ref callback with a null element on
a field whose capability handle is bound is a no-op; the handle stays bound to
the old element instead of being detached. -/
theorem c5_counterexample :
    refCallback c5State "x" none = c5State
    ∧ (lookup (refCallback c5State "x" none).fields "x").map FieldF.ref
        = some (some { target := { id := 1 } }) := by
  constructor <;> decide

/-- Claim C5, amended: the capability handle wrapping the element is bound to
the node when a concrete element attaches via the ref callback (node present,
element non-null); invoking the ref callback with a null element is a no-op
that leaves any previously bound handle in place, so the callback itself never
detaches the handle. -/
theorem c5_ref_binding (s : ControlState) (name : String) (f : FieldF)
    (hf : lookup s.fields name = some f) :
    (∀ e : Elem, lookup (refCallback s name (some e)).fields name
        = some { f with ref := some { target := e } })
    ∧ refCallback s name none = s := by
  constructor
  · intro e
    simp [refCallback, hf, lookup_setKey_self]
  · simp [refCallback, hf]

/-- Claim C5, witness: the amended theorem applied at the concrete state whose
field x already holds a handle for element 1, attaching element 2. -/
theorem c5_witness :
    lookup (refCallback c5State "x" (some { id := 2 })).fields "x"
      = some { mount := true, disabled := none
               ref := some { target := { id := 2 } } } :=
  (c5_ref_binding c5State "x"
    { mount := true, disabled := none, ref := some { target := { id := 1 } } }
    (by decide)).1 { id := 2 }

/-- Claim C6, counterexample: a name change for an array-managed path performs
no unregister of the previous path; the effect only re-registers the new name
and marks it mounted. -/
theorem c6_counterexample :
    effectBodyOps 0 0 (some "items.0.v") "items.1.v" true false
      = [EffectOp.registerOn 0 "items.1.v", EffectOp.setMount "items.1.v" true]
    ∧ EffectOp.unregisterOn 0 "items.0.v"
        ∉ effectBodyOps 0 0 (some "items.0.v") "items.1.v" true false := by
  constructor <;> decide

/-- Claim C6, amended: for non-array paths a name change within the same
control unregisters the previous path and then freshly registers the new one,
and a control change unregisters the previous path on the previous control and
registers on the new control; for array-managed paths no unregister is
performed, only the fresh register, and in no case is there a move operation
carrying state from the old path to the new one. -/
theorem c6_rename_unregister_then_register (pc c : Nat) (pn name : String)
    (flag : Bool) (hpn : pn ≠ "") :
    (pn ≠ name →
      effectBodyOps c c (some pn) name false flag
        = [EffectOp.unregisterOn c pn, EffectOp.registerOn c name,
           EffectOp.setMount name true]
          ++ (if flag then [EffectOp.seedDefault name] else [])
          ++ [EffectOp.registerOn c name])
    ∧ (pc ≠ c →
      effectBodyOps pc c (some pn) name false flag
        = [EffectOp.unregisterOn pc pn, EffectOp.registerOn c name,
           EffectOp.setMount name true]
          ++ (if flag then [EffectOp.seedDefault name] else [])
          ++ [EffectOp.registerOn c name])
    ∧ (pn ≠ name →
      effectBodyOps c c (some pn) name true flag
        = [EffectOp.registerOn c name, EffectOp.setMount name true]
          ++ (if flag then [EffectOp.seedDefault name] else [])) := by
  refine ⟨?_, ?_, ?_⟩
  · intro h
    cases flag <;> simp [effectBodyOps, strTruthy, bne_iff_ne, hpn, h]
  · intro h
    cases flag <;> simp [effectBodyOps, strTruthy, bne_iff_ne, hpn, h]
  · intro h
    cases flag <;> simp [effectBodyOps, strTruthy, bne_iff_ne, hpn, h]

/-- Claim C6, witness: the amended theorem applied to a concrete rename of a
non-array path within one control instance. -/
theorem c6_witness :
    effectBodyOps 4 4 (some "a") "b" false true
      = [EffectOp.unregisterOn 4 "a", EffectOp.registerOn 4 "b",
         EffectOp.setMount "b" true]
        ++ (if true then [EffectOp.seedDefault "b"] else [])
        ++ [EffectOp.registerOn 4 "b"] :=
  (c6_rename_unregister_then_register 4 4 "a" "b" true (by decide)).1 (by decide)

/-- Claim C7: register carries a disabled entry, and setDisabledField writes
the node disabled flag, only when the disabled prop is an explicit boolean; a
non-boolean prop is a silent no-op on the state and produces no disabled
entry, and the entry for an explicit false differs from the absent entry. -/
theorem c7_disabled_explicit_boolean_only (s : ControlState) (name : String)
    (d : Option Val) :
    (isBoolean d = false →
      setDisabledField s name d = s ∧ registerDisabledOption d = none)
    ∧ (∀ (b : Bool) (f : FieldF), lookup s.fields name = some f →
        lookup (setDisabledField s name (some (Val.bool b))).fields name
          = some { f with disabled := some b }
        ∧ registerDisabledOption (some (Val.bool b)) = some b)
    ∧ registerDisabledOption (some (Val.bool false)) ≠ registerDisabledOption none := by
  refine ⟨?_, ?_, by decide⟩
  · intro h
    constructor
    · cases d with
      | none => rfl
      | some v => cases v <;> first | rfl | (simp [isBoolean] at h)
    · cases d with
      | none => rfl
      | some v => cases v <;> first | rfl | (simp [isBoolean] at h)
  · intro b f hf
    exact ⟨by simp [setDisabledField, hf, lookup_setKey_self], rfl⟩

/-- Claim C7, witness: the theorem applied at a concrete state and a
non-boolean disabled prop. -/
theorem c7_witness :
    setDisabledField c7State "d" (some (Val.str "nope")) = c7State
    ∧ registerDisabledOption (some (Val.str "nope")) = none :=
  (c7_disabled_explicit_boolean_only c7State "d" (some (Val.str "nope"))).1 rfl

/-- Claim C8: every fieldState member is a getter re-deriving its value from
the form state passed at access time, so two reads at different states give
the respective derivations even though the object is built once; invalid is
true exactly when an error payload exists at the path, error returns that
payload, and the dirty, touched and validating flags are the boolean at the
path with absent falsy. -/
theorem c8_fieldState_lazy_derivation (name : String) (fs : FormState) :
    ((mkFieldState name).invalid fs = true ↔ ((mkFieldState name).error fs).isSome = true)
    ∧ (mkFieldState name).error fs = lookup fs.errors name
    ∧ (mkFieldState name).invalid fs = (lookup fs.errors name).isSome
    ∧ (mkFieldState name).isDirty fs = (lookup fs.dirtyFields name).getD false
    ∧ (mkFieldState name).isTouched fs = (lookup fs.touchedFields name).getD false
    ∧ (mkFieldState name).isValidating fs
        = (lookup fs.validatingFields name).getD false :=
  ⟨Iff.rfl, rfl, rfl, rfl, rfl, rfl⟩

/-- Claim C9: the ref callback is total and a no-op whenever the field node is
missing or the element is null; the capability handle is written only when
both the node exists and the element is non-null. -/
theorem c9_ref_noop_safety (s : ControlState) (name : String) (elm : Option Elem) :
    (lookup s.fields name = none → refCallback s name elm = s)
    ∧ refCallback s name none = s
    ∧ (refCallback s name elm ≠ s →
        (lookup s.fields name).isSome = true ∧ elm.isSome = true) := by
  refine ⟨?_, ?_, ?_⟩
  · intro h
    cases elm <;> simp [refCallback, h]
  · cases hl : lookup s.fields name <;> simp [refCallback, hl]
  · intro hne
    cases hl : lookup s.fields name with
    | none => exact absurd (by cases elm <;> simp [refCallback, hl]) hne
    | some f =>
        cases elm with
        | none => exact absurd (by simp [refCallback, hl]) hne
        | some e => exact ⟨by simp [hl], rfl⟩

/-- Claim C9, witness: the theorem applied at a concrete state with no node at
the path and a non-null element. -/
theorem c9_witness :
    refCallback c9State "y" (some { id := 3 }) = c9State :=
  (c9_ref_noop_safety c9State "y" (some { id := 3 })).1 (by decide)

/-- Claim C10: the field object carries a disabled entry exactly when the
disabled prop is an explicit boolean or formState disabled is true; when the
form-level flag is true the entry is true, when the form-level flag is false
and the prop is an explicit boolean the entry is that boolean, and when
neither condition holds the entry is absent, preserving the unset versus
explicit-false distinction. -/
theorem c10_field_disabled_key (fsD : Bool) (d : Option Val) :
    ((fieldDisabled fsD d).isSome = (isBoolean d || fsD))
    ∧ (fsD = true → fieldDisabled fsD d = some (Val.bool true))
    ∧ (∀ b : Bool, fsD = false → d = some (Val.bool b) →
        fieldDisabled fsD d = some (Val.bool b))
    ∧ (isBoolean d = false → fsD = false → fieldDisabled fsD d = none) := by
  refine ⟨?_, ?_, ?_, ?_⟩
  · cases hb : isBoolean d <;> cases fsD <;> simp [fieldDisabled, hb]
  · intro h
    subst h
    simp [fieldDisabled]
  · intro b h hd
    subst h
    subst hd
    simp [fieldDisabled, isBoolean]
  · intro h1 h2
    subst h2
    simp [fieldDisabled, h1]

/-- Claim C10, witness: the theorem applied at the explicit-false prop with
the form-level flag off, and at the absent prop with the flag off. -/
theorem c10_witness :
    fieldDisabled false (some (Val.bool false)) = some (Val.bool false)
    ∧ fieldDisabled false none = none :=
  ⟨(c10_field_disabled_key false (some (Val.bool false))).2.2.1 false rfl rfl,
   (c10_field_disabled_key false none).2.2.2 rfl rfl⟩

end RHF
